import Mathlib

/-!
Shallow embedding of the resilient intent-classification subsystem of the
`intent_classifier` repository:

* `ollama_classifier.py` — the FastAPI classification service (`/classify`,
  `/batch-label`, `/intents`, `/health`);
* `UTH_conversion/self_labeling.py` — the resilient client
  (`label_with_mistral_api`) and the batch labeling orchestrator
  (`pseudo_label_all`).

Python string operations are modelled over `List Char` with ASCII semantics
(`str.strip`, `str.lower`, `str.capitalize`, `str.split`). Network effects
are modelled by passing the outcome of each backend call as an explicit
parameter; the sqlite connection of the orchestrator is modelled as a pair
of a durable database and an in-transaction session view. A JSON object body
is modelled as a string-keyed, string-valued association list, which covers
the shapes this service produces and consumes.
-/

namespace IntentClassifier

/-! ### Python string primitives -/

/-- Python `str.strip()` on the character list: whitespace removed from both
ends (`List.rdropWhile p l` is `(l.reverse.dropWhile p).reverse`). -/
def stripChars (l : List Char) : List Char :=
  (l.dropWhile Char.isWhitespace).rdropWhile Char.isWhitespace

/-- Python `s.strip()`. -/
def pyStrip (s : String) : String :=
  ⟨stripChars s.data⟩

/-- Python `s.lower()` (ASCII model). -/
def pyLower (s : String) : String :=
  ⟨s.data.map Char.toLower⟩

/-- Python `s.capitalize()`: first character upper-cased, the rest lower-cased. -/
def pyCapitalize (s : String) : String :=
  match s.data with
  | [] => ⟨[]⟩
  | c :: cs => ⟨c.toUpper :: cs.map Char.toLower⟩

/-- The first whitespace-delimited token of `s`, if any (Python `s.split()[0]`). -/
def firstToken (s : String) : Option String :=
  let t := (s.data.dropWhile Char.isWhitespace).takeWhile (fun c => !c.isWhitespace)
  if t = [] then none else some ⟨t⟩

/-- Looks up a key in a JSON-object body (Python `result["k"]` / `"k" in result`). -/
def lookupField (fields : List (String × String)) (k : String) : Option String :=
  (fields.find? (fun kv => kv.1 = k)).map (fun kv => kv.2)

/-- Python `str(result)` for a dict of strings: `\x7b'k': 'v', ...\x7d`. -/
def pyReprDict (fields : List (String × String)) : String :=
  "\x7b" ++ String.intercalate ", "
    (fields.map (fun kv => "\x27" ++ kv.1 ++ "\x27: \x27" ++ kv.2 ++ "\x27")) ++ "\x7d"

/-! ### Classification service data model (`ollama_classifier.py`) -/

/-- `ClassificationRequest` pydantic model. `none` models JSON `null`. -/
structure ClassificationRequest where
  prompt : String
  max_tokens : Option Int
  temperature : Option ℚ
  system_prompt : Option String
  deriving DecidableEq, Repr

/-- `ClassificationResponse` pydantic model. -/
structure ClassificationResponse where
  intent : String
  confidence : Option ℚ
  processing_time : Option ℚ
  raw_response : Option String
  deriving DecidableEq, Repr

/-- `fastapi.HTTPException` payload. -/
structure HTTPException where
  status_code : Nat
  detail : String
  deriving DecidableEq, Repr

/-- One audit line of `pseudo_labels.jsonl`: `\x7b"input", "output"\x7d`. -/
structure AuditRecord where
  input : String
  output : String
  deriving DecidableEq, Repr

/-- Outcome of the one `POST \x7bOLLAMA_URL\x7d/api/generate` call made by
`classify_with_ollama`: a 200 response with a decoded JSON object body, a
non-200 response, a timeout, or any other exception. -/
inductive GenerateOutcome where
  | ok (body : List (String × String))
  | httpError (status : Nat) (text : String)
  | timeout
  | exn (msg : String)
  deriving DecidableEq, Repr

/-- `OLLAMA_URL` module constant. -/
def OLLAMA_URL : String := "http://localhost:11434"

/-- `extract_intent_from_response`: `raw_response.strip().capitalize()`. -/
def extract_intent_from_response (raw_response : String) : String :=
  pyCapitalize (pyStrip raw_response)

/-- `classify_with_ollama` (lines 55–106): on a 200 response the raw text is
`result.get("response", "").strip().lower()` and the intent is
`extract_intent_from_response` of it; other outcomes raise `HTTPException`s. -/
def classify_with_ollama (_prompt _system_prompt : String) (_temperature : ℚ)
    (outcome : GenerateOutcome) : Except HTTPException (String × String) :=
  match outcome with
  | .ok body =>
      let raw_response := pyLower (pyStrip ((lookupField body "response").getD ""))
      let intent := extract_intent_from_response raw_response
      .ok (intent, raw_response)
  | .httpError status text =>
      .error ⟨500, "Ollama API error: " ++ toString status ++ " - " ++ text⟩
  | .timeout => .error ⟨504, "Ollama request timeout"⟩
  | .exn msg => .error ⟨500, "Ollama request failed: " ++ msg⟩

/-- Line 169: `min(max(request.temperature or 0.1, 0.0), 1.0)`. A Python `or`
replaces both `None` and the falsy `0.0` by the default `0.1`. -/
def clampTemp (temperature : Option ℚ) : ℚ :=
  let t := match temperature with
    | none => 1/10
    | some v => if v = 0 then 1/10 else v
  min (max t 0) 1

/-- Line 170: `request.system_prompt or "Classify the user intent."`. -/
def defaultSystemPrompt (system_prompt : Option String) : String :=
  match system_prompt with
  | none => "Classify the user intent."
  | some s => if s = "" then "Classify the user intent." else s

/-- `POST /classify` handler `classify_intent` (lines 149–197). `backend` is
the outcome of the single generate call; `auditErr` is `none` when the
`save_to_jsonl` append succeeds and `some msg` when it raises; `log` is the
audit file contents. An exception raised by the audit write is caught by the
handler's generic `except Exception` clause and converted to a 500, so the
returned log is unchanged and the request fails. -/
def classify_intent (request : ClassificationRequest) (backend : GenerateOutcome)
    (auditErr : Option String) (log : List AuditRecord) (elapsed : ℚ) :
    Except HTTPException ClassificationResponse × List AuditRecord :=
  if request.prompt = "" ∨ pyStrip request.prompt = "" then
    (.error ⟨400, "Prompt cannot be empty"⟩, log)
  else
    let temperature := clampTemp request.temperature
    let system_prompt := defaultSystemPrompt request.system_prompt
    match classify_with_ollama request.prompt system_prompt temperature backend with
    | .error e => (.error e, log)
    | .ok (predicted_intent, raw_response) =>
        match auditErr with
        | some msg => (.error ⟨500, "Classification failed: " ++ msg⟩, log)
        | none =>
            (.ok ⟨predicted_intent, none, some elapsed, some raw_response⟩,
             log ++ [⟨request.prompt, predicted_intent⟩])

/-! ### Module-level name resolution (`ollama_classifier.py`)

The file references two names that are not bound at the scope where they are
used: `VALID_INTENTS` (lines 144 and 202) is never assigned anywhere in the
module, and `save_to_jsonl` (line 224) is a local function of
`classify_intent` (line 181), not a module global. Evaluating either name
raises `NameError` at run time. -/

/-- The names bound at module scope of `ollama_classifier.py`: the ten
imported names followed by the module's own assignments and `def`s, in
program order. `VALID_INTENTS` and `save_to_jsonl` are absent. -/
def moduleGlobals : List String :=
  ["FastAPI", "HTTPException", "BaseModel", "uvicorn", "httpx", "asyncio",
   "json", "Optional", "re", "aiofiles",
   "app", "OLLAMA_URL", "ClassificationRequest", "ClassificationResponse",
   "check_ollama_health", "classify_with_ollama", "extract_intent_from_response",
   "startup_event", "root", "health_check", "classify_intent",
   "get_valid_intents", "get_ollama_models", "batch_label"]

/-- A Python exception of this module: a `NameError` from an unbound global,
or a `fastapi.HTTPException`. -/
inductive PyExn where
  | nameError (n : String)
  | httpException (status : Nat) (detail : String)
  deriving DecidableEq, Repr

/-- Evaluating a global name: `NameError` unless the name is bound. -/
def evalGlobal (n : String) : Except PyExn String :=
  if moduleGlobals.contains n then .ok n else .error (.nameError n)

/-- Python `str(e)` for the exceptions batch items can carry. -/
def pyExnStr : PyExn → String
  | .nameError n => "name \x27" ++ n ++ "\x27 is not defined"
  | .httpException status detail => toString status ++ ": " ++ detail

/-- `GET /intents` handler `get_valid_intents` (lines 199–202): returns
`\x7b"valid_intents": VALID_INTENTS\x7d`, which evaluates `VALID_INTENTS`. -/
def get_valid_intents : Except PyExn (List (String × String)) :=
  match evalGlobal "VALID_INTENTS" with
  | .error e => .error e
  | .ok v => .ok [("valid_intents", v)]

/-- `GET /health` handler `health_check` (lines 136–147). `ready` and
`message` are the result of `check_ollama_health`; the response dict's fourth
item evaluates `VALID_INTENTS`. -/
def health_check (ready : Bool) (message : String) :
    Except PyExn (List (String × String)) :=
  match evalGlobal "VALID_INTENTS" with
  | .error e => .error e
  | .ok v =>
      .ok [("status", if ready then "healthy" else "degraded"),
           ("service", "Ollama Mistral Intent Classifier"),
           ("ollama_status", message),
           ("valid_intents", v),
           ("model", "mistral"),
           ("ollama_url", OLLAMA_URL)]

/-- The HTTP status FastAPI sends for a handler's outcome: 200 on a normal
return, the carried status for an `HTTPException`, 500 for any other
uncaught exception such as a `NameError`. -/
def responseStatus {α : Type} : Except PyExn α → Nat
  | .ok _ => 200
  | .error (.httpException s _) => s
  | .error (.nameError _) => 500

/-- One result element of `POST /batch-label`: `\x7b"input", "intent"\x7d` on
success, `\x7b"input", "error"\x7d` on a caught exception. -/
inductive BatchItem where
  | success (input intent : String)
  | failure (input error : String)
  deriving DecidableEq, Repr

/-- The loop body of `batch_label` (lines 220–227) for one prompt: classify,
then `await save_to_jsonl(prompt, intent)` — which resolves the module global
`save_to_jsonl` and raises `NameError`, caught by `except Exception as e`. -/
def batchItemFor (prompt : String) (outcome : GenerateOutcome) : BatchItem :=
  match classify_with_ollama prompt "" (1/10) outcome with
  | .ok (intent, _raw) =>
      match evalGlobal "save_to_jsonl" with
      | .ok _ => .success prompt intent
      | .error e => .failure prompt (pyExnStr e)
  | .error e => .failure prompt (pyExnStr (.httpException e.status_code e.detail))

/-- `POST /batch-label` handler `batch_label` (lines 218–228): one result per
prompt, in order. `backend` gives each prompt's generate-call outcome. -/
def batch_label (backend : String → GenerateOutcome) (data : List String) :
    List BatchItem :=
  data.map (fun prompt => batchItemFor prompt (backend prompt))

/-! ### Resilient client (`UTH_conversion/self_labeling.py`) -/

/-- Outcome of one attempt of the client's `requests.post` plus
`response.json()`: a 200 response with a decoded JSON object body, a non-200
response, or one of the caught exceptions (timeout, connection error, other
request error, JSON decode error). Every non-200 outcome falls through to the
shared backoff and retry. -/
inductive AttemptOutcome where
  | http200 (body : List (String × String))
  | httpFail (status : Nat) (text : String)
  | timeoutErr
  | connErr
  | reqErr (msg : String)
  | decodeErr (msg : String)
  deriving DecidableEq, Repr

/-- An attempt outcome that does not return from the loop. -/
def retryable : AttemptOutcome → Bool
  | .http200 _ => false
  | _ => true

/-- Line 65: `text.split()[0] if text else "navigate"`. (For a stringified
dict the text is nonempty and starts with a non-whitespace character, so the
indexing is total; the unreachable all-whitespace case is modelled by the
same default.) -/
def firstTokenOrNavigate (text : String) : String :=
  if text = "" then "navigate" else (firstToken text).getD "navigate"

/-- The client's response-extraction policy (lines 52–65), applied to a
decoded 200 body: field `"intent"`, else `"response"`, else `"text"` — each
`.strip().lower()`-ed in full — else the first whitespace-delimited token of
`str(result).strip().lower()`, else the literal `"navigate"`. -/
def extractFromBody (fields : List (String × String)) : String :=
  match lookupField fields "intent" with
  | some v => pyLower (pyStrip v)
  | none =>
    match lookupField fields "response" with
    | some v => pyLower (pyStrip v)
    | none =>
      match lookupField fields "text" with
      | some v => pyLower (pyStrip v)
      | none => firstTokenOrNavigate (pyLower (pyStrip (pyReprDict fields)))

/-- `fallback_classification` (lines 91–95): prints diagnostics and returns
`None` — no rule-based label is synthesized. -/
def fallback_classification (_prompt : String) : Option String :=
  none

/-- The retry loop of `label_with_mistral_api` from loop index `attempt`
(lines 41–84): result if some attempt returns, number of backend calls made,
and the list of backoff sleeps (`2 ** attempt` seconds after each failed
attempt with `attempt < max_retries - 1`). -/
def retryFrom (backend : Nat → AttemptOutcome) (max_retries attempt : Nat) :
    Option String × Nat × List Nat :=
  if h : attempt < max_retries then
    match backend attempt with
    | .http200 body => (some (extractFromBody body), 1, [])
    | _ =>
        let tail := retryFrom backend max_retries (attempt + 1)
        (tail.1, tail.2.1 + 1,
         (if attempt < max_retries - 1 then [2 ^ attempt] else []) ++ tail.2.2)
  else (none, 0, [])
termination_by max_retries - attempt
decreasing_by omega

/-- Observable behavior of one `label_with_mistral_api` call. -/
structure RetryResult where
  result : Option String
  attempts : Nat
  sleeps : List Nat
  deriving DecidableEq, Repr

/-- `label_with_mistral_api` (lines 12–88): run the retry loop from attempt
0; if it exhausts, return `fallback_classification(prompt)` (that is,
`None`). -/
def label_with_mistral_api (prompt : String) (backend : Nat → AttemptOutcome)
    (max_retries : Nat) : RetryResult :=
  let r := retryFrom backend max_retries 0
  match r.1 with
  | some intent => ⟨some intent, r.2.1, r.2.2⟩
  | none => ⟨fallback_classification prompt, r.2.1, r.2.2⟩

/-! ### Batch labeling orchestrator (`UTH_conversion/self_labeling.py`) -/

/-- One row of the `intents` table, with the fields this core touches.
`none` models SQL `NULL`; `label_source = none` is the `unset` tag. -/
structure IntentRecord where
  id : Nat
  domain : String
  action_text : String
  inferred_intent : Option String
  label_source : Option String
  deriving DecidableEq, Repr, Inhabited

/-- `build_prompt` (lines 8–9). -/
def build_prompt (domain action_text : String) : String :=
  "what is the user\x27s likely intent if they are on " ++ domain ++
    " and click " ++ action_text ++ "?"

/-- Line 102–104: `SELECT id, domain, action_text FROM intents WHERE
inferred_intent IS NULL`. -/
def selectUnlabeled (db : List IntentRecord) : List (Nat × String × String) :=
  (db.filter (fun r => r.inferred_intent.isNone)).map
    (fun r => (r.id, r.domain, r.action_text))

/-- Lines 115–117: `UPDATE intents SET inferred_intent = ?, label_source = ?
WHERE id = ?` — both fields written together, on every row whose id
matches. -/
def applyUpdate (db : List IntentRecord) (rid : Nat) (intent source : String) :
    List IntentRecord :=
  db.map (fun r =>
    if r.id = rid then
      { r with inferred_intent := some intent, label_source := some source }
    else r)

/-- The sqlite connection: `durable` is what survives process termination,
`session` is the connection's view including uncommitted writes. `execute`
changes only `session`; `commit` flushes it. -/
structure Conn where
  durable : List IntentRecord
  session : List IntentRecord
  deriving DecidableEq, Repr

/-- `conn.commit()` (line 121). -/
def Conn.commit (c : Conn) : Conn :=
  { c with durable := c.session }

/-- The loop body of `pseudo_label_all` on the session view (lines 108–119):
classify the row's prompt; on success execute the two-field `UPDATE`, on
`None` leave the database untouched. -/
def sessStep (lab : String → Option String) (sess : List IntentRecord)
    (row : Nat × String × String) : List IntentRecord :=
  match lab (build_prompt row.2.1 row.2.2) with
  | some intent => applyUpdate sess row.1 intent "mistral_api"
  | none => sess

/-- The loop body of `pseudo_label_all` on the connection: only the session
changes, nothing is committed. -/
def labelStep (lab : String → Option String) (c : Conn)
    (row : Nat × String × String) : Conn :=
  { c with session := sessStep lab c.session row }

/-- The whole record loop of `pseudo_label_all`. -/
def labelPass (lab : String → Option String) (c : Conn)
    (rows : List (Nat × String × String)) : Conn :=
  rows.foldl (labelStep lab) c

/-- `pseudo_label_all` (lines 98–122): select the unlabeled rows, run the
loop, then `conn.commit()` once after the loop. `lab` is the per-prompt
result of `label_with_mistral_api`. -/
def pseudo_label_all (lab : String → Option String) (db : List IntentRecord) :
    Conn :=
  (labelPass lab ⟨db, db⟩ (selectUnlabeled db)).commit

/-- The connection state of a `pseudo_label_all` run that is terminated after
processing the first `k` selected rows — before the pass-final commit. -/
def midPassConn (lab : String → Option String) (db : List IntentRecord)
    (k : Nat) : Conn :=
  labelPass lab ⟨db, db⟩ ((selectUnlabeled db).take k)

/-- The single `UPDATE`'s effect on one record: both fields set together. -/
def relabel (r : IntentRecord) (s : String) : IntentRecord :=
  { r with inferred_intent := some s, label_source := some "mistral_api" }

/-- How one pass may evolve a single record: an already-labeled record is
left exactly as it was; an unlabeled record is either untouched (skipped) or
has `inferred_intent` and `label_source` written together. -/
def evolvesP (r0 r : IntentRecord) : Prop :=
  (r0.inferred_intent ≠ none → r = r0) ∧
  (r0.inferred_intent = none → r = r0 ∨ ∃ s, r = relabel r0 s)

/-- The store invariant in its NULL-based form: `inferred_intent` is present
exactly when `label_source` is set. -/
def presentInv (db : List IntentRecord) : Prop :=
  ∀ r ∈ db, (r.inferred_intent ≠ none ↔ r.label_source ≠ none)

/-- The spec's literal invariant: `inferred_intent` is a non-empty string
exactly when `label_source` is set. -/
def claimInvariant (db : List IntentRecord) : Prop :=
  ∀ r ∈ db, (r.inferred_intent.getD "" ≠ "" ↔ r.label_source ≠ none)

instance (db : List IntentRecord) : Decidable (presentInv db) :=
  inferInstanceAs (Decidable (∀ r ∈ db,
    (r.inferred_intent ≠ none ↔ r.label_source ≠ none)))

instance (db : List IntentRecord) : Decidable (claimInvariant db) :=
  inferInstanceAs (Decidable (∀ r ∈ db,
    (r.inferred_intent.getD "" ≠ "" ↔ r.label_source ≠ none)))

/-- Splits a character list at spaces (like Python `s.split(" ")`). -/
def splitAtSpaces (l : List Char) (cur : List Char) : List (List Char) :=
  match l with
  | [] => [cur.reverse]
  | c :: cs =>
      if c = ' ' then cur.reverse :: splitAtSpaces cs []
      else splitAtSpaces cs (c :: cur)

/-- Joins words with single spaces. -/
def joinSpace : List String → String
  | [] => ""
  | [w] => w
  | w :: ws => w ++ " " ++ joinSpace ws

/-- Title-casing as the specification words it: the first letter of each
space-separated word up-cased. Stated from the spec's words, for comparison
with `extract_intent_from_response`, whose Python `capitalize` touches only
the first character of the whole string. -/
def specTitleCase (s : String) : String :=
  joinSpace ((splitAtSpaces s.data []).map (fun w => pyCapitalize ⟨w⟩))

/-! ### Helper lemmas on the Python string primitives -/

lemma toNat_ofNat_valid (n : Nat) (h : n.isValidChar) :
    (Char.ofNat n).toNat = n := by
  unfold Char.ofNat
  rw [dif_pos h]
  rfl

lemma isWhitespace_eq_false_of_ge (c : Char) (h : 65 ≤ c.toNat) :
    c.isWhitespace = false := by
  simp only [Char.isWhitespace, Bool.or_eq_false_iff, decide_eq_false_iff_not]
  refine ⟨⟨⟨?_, ?_⟩, ?_⟩, ?_⟩ <;> (intro hc; subst hc; exact absurd h (by decide))

/-- ASCII lower-casing does not create or destroy whitespace. -/
lemma toLower_isWhitespace (c : Char) :
    c.toLower.isWhitespace = c.isWhitespace := by
  unfold Char.toLower
  show (if c.toNat ≥ 65 ∧ c.toNat ≤ 90 then Char.ofNat (c.toNat + 32)
        else c).isWhitespace = c.isWhitespace
  by_cases h : c.toNat ≥ 65 ∧ c.toNat ≤ 90
  · rw [if_pos h]
    have hv : (c.toNat + 32).isValidChar := by left; omega
    rw [isWhitespace_eq_false_of_ge c h.1,
        isWhitespace_eq_false_of_ge _ (by rw [toNat_ofNat_valid _ hv]; omega)]
  · rw [if_neg h]

lemma dropWhile_eq_self_of_leading {α} {p : α → Bool} {l₁ l₂ : List α}
    (hpre : l₁ <+: l₂) (h : l₂.dropWhile p = l₂) : l₁.dropWhile p = l₁ := by
  rw [List.dropWhile_eq_self_iff] at h ⊢
  intro hl
  obtain ⟨s, hs⟩ := hpre
  subst hs
  have h0 : 0 < (l₁ ++ s).length := by simp; omega
  have h1 := h h0
  rwa [List.get_append _ hl] at h1

lemma stripChars_idem (l : List Char) :
    stripChars (stripChars l) = stripChars l := by
  unfold stripChars
  have h1 : (l.dropWhile Char.isWhitespace).dropWhile Char.isWhitespace
      = l.dropWhile Char.isWhitespace := List.dropWhile_idempotent _ _
  rw [dropWhile_eq_self_of_leading (List.rdropWhile_prefix _ _) h1,
      List.rdropWhile_idempotent _ _]

lemma rdropWhile_map (f : Char → Char) (p : Char → Bool) (l : List Char)
    (hf : ∀ c, p (f c) = p c) :
    (l.map f).rdropWhile p = (l.rdropWhile p).map f := by
  unfold List.rdropWhile
  have hp : (p ∘ f) = p := funext fun c => hf c
  rw [← List.map_reverse, List.dropWhile_map, hp, ← List.map_reverse]

lemma stripChars_map_toLower (l : List Char) :
    stripChars (l.map Char.toLower) = (stripChars l).map Char.toLower := by
  unfold stripChars
  have hp : (Char.isWhitespace ∘ Char.toLower) = Char.isWhitespace :=
    funext fun c => toLower_isWhitespace c
  rw [List.dropWhile_map, hp, rdropWhile_map _ _ _ toLower_isWhitespace]

/-- `s.strip().lower()` is already stripped: stripping it again is a no-op. -/
lemma pyStrip_pyLower_pyStrip (s : String) :
    pyStrip (pyLower (pyStrip s)) = pyLower (pyStrip s) := by
  unfold pyStrip pyLower
  congr 1
  show stripChars ((stripChars s.data).map Char.toLower)
      = (stripChars s.data).map Char.toLower
  rw [stripChars_map_toLower, stripChars_idem]

/-! ### Helper lemmas on the orchestrator and the retry loop -/

lemma labelPass_durable (lab : String → Option String)
    (rows : List (Nat × String × String)) :
    ∀ c : Conn, (labelPass lab c rows).durable = c.durable := by
  induction rows with
  | nil => intro c; rfl
  | cons row rest ih => intro c; exact ih (labelStep lab c row)

lemma labelPass_session (lab : String → Option String)
    (rows : List (Nat × String × String)) :
    ∀ c : Conn, (labelPass lab c rows).session
      = rows.foldl (sessStep lab) c.session := by
  induction rows with
  | nil => intro c; rfl
  | cons row rest ih =>
      intro c
      show (labelPass lab (labelStep lab c row) rest).session = _
      rw [ih]
      rfl

lemma selectUnlabeled_targets (db : List IntentRecord) :
    ∀ row ∈ selectUnlabeled db,
      ∃ r1 ∈ db, r1.inferred_intent = none ∧ row.1 = r1.id := by
  intro row hrow
  unfold selectUnlabeled at hrow
  rw [List.mem_map] at hrow
  obtain ⟨r, hrf, hre⟩ := hrow
  rw [List.mem_filter] at hrf
  refine ⟨r, hrf.1, Option.isNone_iff_eq_none.mp hrf.2, ?_⟩
  rw [← hre]

lemma evolvesP_id {r0 r : IntentRecord} (h : evolvesP r0 r) : r.id = r0.id := by
  by_cases h0 : r0.inferred_intent = none
  · rcases h.2 h0 with h' | ⟨s, h'⟩ <;> rw [h'] <;> rfl
  · rw [h.1 h0]

lemma applyUpdate_evolves (db sess : List IntentRecord) (rid : Nat)
    (intent : String) (hid : (db.map IntentRecord.id).Nodup)
    (htarget : ∃ r1 ∈ db, r1.inferred_intent = none ∧ rid = r1.id)
    (h : List.Forall₂ (fun r0 r => r0 ∈ db → evolvesP r0 r) db sess) :
    List.Forall₂ (fun r0 r => r0 ∈ db → evolvesP r0 r) db
      (applyUpdate sess rid intent "mistral_api") := by
  unfold applyUpdate
  rw [List.forall₂_map_right_iff]
  refine h.imp ?_
  intro r0 r hP hmem
  have hE := hP hmem
  by_cases hcase : r.id = rid
  · rw [if_pos hcase]
    obtain ⟨r1, hr1mem, hr1unlab, hrid⟩ := htarget
    have hidEq : r0.id = r1.id := by rw [← evolvesP_id hE, hcase, hrid]
    have hr01 : r0 = r1 := List.inj_on_of_nodup_map hid hmem hr1mem hidEq
    have h0 : r0.inferred_intent = none := by rw [hr01]; exact hr1unlab
    constructor
    · intro hne; exact absurd h0 hne
    · intro _
      right
      rcases hE.2 h0 with h' | ⟨s, h'⟩
      · exact ⟨intent, by rw [h']; rfl⟩
      · exact ⟨intent, by rw [h']; rfl⟩
  · rw [if_neg hcase]
    exact hE

lemma sessFold_evolves (lab : String → Option String) (db : List IntentRecord)
    (hid : (db.map IntentRecord.id).Nodup) :
    ∀ (rows : List (Nat × String × String)) (sess : List IntentRecord),
      (∀ row ∈ rows, ∃ r1 ∈ db, r1.inferred_intent = none ∧ row.1 = r1.id) →
      List.Forall₂ (fun r0 r => r0 ∈ db → evolvesP r0 r) db sess →
      List.Forall₂ (fun r0 r => r0 ∈ db → evolvesP r0 r) db
        (rows.foldl (sessStep lab) sess) := by
  intro rows
  induction rows with
  | nil => intro sess _ h; exact h
  | cons row rest ih =>
      intro sess hrows h
      show List.Forall₂ _ db (rest.foldl (sessStep lab) (sessStep lab sess row))
      apply ih
      · intro r hr
        exact hrows r (List.mem_cons_of_mem _ hr)
      · unfold sessStep
        split
        · apply applyUpdate_evolves db sess row.1 _ hid
            (hrows row (List.mem_cons_self _ _)) h
        · exact h

/-- One unfolding of the retry loop when the first attempt succeeds. -/
lemma retryFrom_success_first (backend : Nat → AttemptOutcome) (m : Nat)
    (body : List (String × String)) (hm : 0 < m)
    (hb : backend 0 = .http200 body) :
    retryFrom backend m 0 = (some (extractFromBody body), 1, []) := by
  rw [retryFrom, dif_pos hm, hb]

/-- The retry loop on an always-retryable backend: it exhausts all attempts
from `a` to `m - 1`, sleeping `2 ^ i` seconds after each attempt `i` with
`i < m - 1`, and yields no result. -/
lemma retryFrom_exhaust (backend : Nat → AttemptOutcome) (m : Nat)
    (h : ∀ i, retryable (backend i) = true) :
    ∀ fuel a, m - a = fuel →
      retryFrom backend m a
        = (none, m - a, (List.range' a (m - 1 - a)).map (fun i => 2 ^ i)) := by
  intro fuel
  induction fuel with
  | zero =>
      intro a ha
      have hna : ¬ a < m := by omega
      rw [retryFrom, dif_neg hna]
      have h1 : m - 1 - a = 0 := by omega
      rw [ha, h1]
      rfl
  | succ n ih =>
      intro a ha
      have hlt : a < m := by omega
      rw [retryFrom, dif_pos hlt]
      have htail := ih (a + 1) (by omega)
      split
      · rename_i body heq
        have hr := h a
        rw [heq] at hr
        simp [retryable] at hr
      · rw [htail]
        simp only [Prod.mk.injEq]
        refine ⟨trivial, by omega, ?_⟩
        by_cases hc : a < m - 1
        · rw [if_pos hc]
          have h1 : m - 1 - a = (m - 1 - (a + 1)) + 1 := by omega
          rw [h1, List.range'_succ]
          rfl
        · rw [if_neg hc]
          have h1 : m - 1 - a = 0 := by omega
          have h2 : m - 1 - (a + 1) = 0 := by omega
          rw [h1, h2]
          rfl

/-! ### Claim theorems -/

/-- C3: the claim says `GET /intents` always returns the static enumeration
of intent categories and `GET /health` always answers with a
degraded-but-serving status, never an error. In the code `VALID_INTENTS` is
referenced by both handlers but never defined anywhere in the module, so both
raise `NameError` — which FastAPI surfaces as a 500 error response — whatever
the health probe reports. -/
theorem valid_intents_undefined :
    get_valid_intents = .error (.nameError "VALID_INTENTS") ∧
    responseStatus get_valid_intents = 500 ∧
    health_check true "Ollama and Mistral are ready"
      = .error (.nameError "VALID_INTENTS") ∧
    health_check false "Cannot connect to Ollama"
      = .error (.nameError "VALID_INTENTS") ∧
    responseStatus (health_check false "Cannot connect to Ollama") = 500 :=
  ⟨rfl, rfl, rfl, rfl, rfl⟩

/-- C4: the claim says a prompt whose classification succeeds yields a
success payload. In the code the loop of `batch_label` calls
`save_to_jsonl`, which is a local function of `classify_intent` and is not
bound at module scope, so even after a successful classification the
iteration raises `NameError`, is caught by `except Exception`, and the
element becomes an error payload. Here the backend answers 200 with
`\x7b"response": "greet"\x7d`, classification succeeds, and the element is
still `\x7b"input", "error"\x7d`. -/
theorem batch_label_audit_name_error :
    batch_label (fun _ => .ok [("response", "greet")]) ["hello"]
      = [.failure "hello" "name \x27save_to_jsonl\x27 is not defined"] :=
  rfl

/-- C6 counterexample: a supplied temperature of `0` lies inside `[0,1]`, so
the claim says it is used unchanged; the code's `request.temperature or 0.1`
treats `0` as falsy and replaces it by the default `0.1`. -/
theorem temperature_zero_cex :
    clampTemp (some 0) = 1/10 ∧ min (max (0 : ℚ) 0) 1 = 0 ∧ (1/10 : ℚ) ≠ 0 := by
  refine ⟨?_, by norm_num, by norm_num⟩
  show min (max (1/10 : ℚ) 0) 1 = 1/10
  norm_num

/-- C6 amended: the temperature used for the generation call equals the
request's temperature clamped to `[0,1]` when a nonzero temperature is
supplied; the default `0.1` is used when no temperature is supplied or when
the supplied temperature equals `0` (Python `or` treats `0.0` as falsy). -/
theorem clampTemp_behavior (t : ℚ) :
    clampTemp (some t) = (if t = 0 then 1/10 else min (max t 0) 1) ∧
    clampTemp none = 1/10 := by
  constructor
  · by_cases h : t = 0
    · rw [if_pos h, h]
      show min (max (1/10 : ℚ) 0) 1 = 1/10
      norm_num
    · rw [if_neg h]
      show min (max (if t = 0 then 1/10 else t) 0) 1 = min (max t 0) 1
      rw [if_neg h]
  · show min (max (1/10 : ℚ) 0) 1 = 1/10
    norm_num

/-- C5 counterexample: on a 200 response with raw text `"add to cart"` the
service returns intent `"Add to cart"` (Python `capitalize`: only the first
character of the string is up-cased), while the claim's trim + lower-case +
title-case pipeline would produce `"Add To Cart"`. -/
theorem capitalize_not_titlecase_cex :
    classify_with_ollama "msg" "" 1 (.ok [("response", "add to cart")])
      = .ok ("Add to cart", "add to cart") ∧
    specTitleCase (pyLower (pyStrip "add to cart")) = "Add To Cart" ∧
    ("Add to cart" : String) ≠ "Add To Cart" :=
  ⟨rfl, rfl, by decide⟩

/-- C5 amended: on every successful generate call the returned `raw_response`
equals the backend's raw text trimmed and lower-cased, and the returned
intent is that normalized text with only its first character up-cased
(Python `capitalize`), not title-cased. -/
theorem classify_normalizes_capitalize (prompt sp : String) (t : ℚ)
    (body : List (String × String)) (raw : String)
    (h : lookupField body "response" = some raw) :
    classify_with_ollama prompt sp t (.ok body)
      = .ok (pyCapitalize (pyLower (pyStrip raw)), pyLower (pyStrip raw)) := by
  unfold classify_with_ollama extract_intent_from_response
  show Except.ok
      (pyCapitalize (pyStrip (pyLower (pyStrip ((lookupField body "response").getD "")))),
       pyLower (pyStrip ((lookupField body "response").getD ""))) = _
  rw [h, Option.getD_some, pyStrip_pyLower_pyStrip]

/-- Witness for `classify_normalizes_capitalize` at a concrete multi-word
response. -/
theorem classify_normalizes_capitalize_witness :
    classify_with_ollama "m" "" 1 (.ok [("response", " Add To Cart ")])
      = .ok ("Add to cart", "add to cart") := by
  have h := classify_normalizes_capitalize "m" "" 1
    [("response", " Add To Cart ")] " Add To Cart " rfl
  rw [h]
  rfl

/-- C1 counterexample: the prompt is valid and the backend call succeeds, but
the audit write raises; `classify_intent` has no handler around
`save_to_jsonl`, so the generic `except Exception` clause turns the audit
failure into a 500 — the request fails instead of returning the successful
`ClassificationResponse`, and nothing is appended to the log. -/
theorem classify_audit_failure_cex :
    classify_intent ⟨"hello", some 50, some 1, none⟩
        (.ok [("response", "greet")]) (some "disk full") [] 0
      = (.error ⟨500, "Classification failed: disk full"⟩, []) :=
  rfl

/-- C1 amended: for every successful classification whose audit write also
succeeds, exactly one audit record is appended and its `input` equals the
original prompt; but when the audit write itself errors, the overall request
fails with a 500 `Classification failed` response (the audit failure is
propagated, not logged and swallowed) and the log is unchanged. -/
theorem classify_audit_behavior (request : ClassificationRequest)
    (body : List (String × String)) (log : List AuditRecord) (elapsed : ℚ)
    (msg : String) (hp : pyStrip request.prompt ≠ "") :
    (∃ resp : ClassificationResponse,
        classify_intent request (.ok body) none log elapsed
          = (.ok resp, log ++ [⟨request.prompt, resp.intent⟩])) ∧
    classify_intent request (.ok body) (some msg) log elapsed
      = (.error ⟨500, "Classification failed: " ++ msg⟩, log) := by
  have hp0 : request.prompt ≠ "" := fun h0 => hp (by rw [h0]; rfl)
  have hcond : ¬(request.prompt = "" ∨ pyStrip request.prompt = "") := by
    rintro (h | h)
    exacts [hp0 h, hp h]
  constructor
  · refine ⟨⟨extract_intent_from_response
        (pyLower (pyStrip ((lookupField body "response").getD ""))), none,
        some elapsed,
        some (pyLower (pyStrip ((lookupField body "response").getD "")))⟩, ?_⟩
    unfold classify_intent
    rw [if_neg hcond]
    rfl
  · unfold classify_intent
    rw [if_neg hcond]
    rfl

/-- Witness for `classify_audit_behavior` at a concrete request. -/
theorem classify_audit_behavior_witness :
    (∃ resp : ClassificationResponse,
        classify_intent ⟨"hello", some 50, some 1, none⟩
            (.ok [("response", "greet")]) none [] 0
          = (.ok resp, [] ++ [⟨"hello", resp.intent⟩])) ∧
    classify_intent ⟨"hello", some 50, some 1, none⟩
        (.ok [("response", "greet")]) (some "disk full") [] 0
      = (.error ⟨500, "Classification failed: disk full"⟩, []) :=
  classify_audit_behavior ⟨"hello", some 50, some 1, none⟩
    [("response", "greet")] [] 0 "disk full" (by decide)

/-- C10: when the backend answers 200 with a JSON body that has no
`"response"` field, `result.get("response", "")` yields the empty string, no
error is reported: the request succeeds with intent `""`, `raw_response`
`""`, and one audit line whose output is empty. -/
theorem classify_missing_response_field (request : ClassificationRequest)
    (body : List (String × String)) (log : List AuditRecord) (elapsed : ℚ)
    (hp : pyStrip request.prompt ≠ "") (hb : lookupField body "response" = none) :
    classify_intent request (.ok body) none log elapsed
      = (.ok ⟨"", none, some elapsed, some ""⟩, log ++ [⟨request.prompt, ""⟩]) := by
  have hp0 : request.prompt ≠ "" := fun h0 => hp (by rw [h0]; rfl)
  have hcond : ¬(request.prompt = "" ∨ pyStrip request.prompt = "") := by
    rintro (h | h)
    exacts [hp0 h, hp h]
  have hc : classify_with_ollama request.prompt
      (defaultSystemPrompt request.system_prompt) (clampTemp request.temperature)
      (.ok body) = .ok ("", "") := by
    unfold classify_with_ollama extract_intent_from_response
    show Except.ok
        (pyCapitalize (pyStrip (pyLower (pyStrip ((lookupField body "response").getD "")))),
         pyLower (pyStrip ((lookupField body "response").getD ""))) = _
    rw [hb]
    rfl
  simp only [classify_intent, if_neg hcond, hc]

/-- Witness for `classify_missing_response_field` at a concrete request whose
backend body lacks a `"response"` field. -/
theorem classify_missing_response_field_witness :
    classify_intent ⟨"hello", some 50, some 1, none⟩ (.ok [("done", "true")])
        none [] 0
      = (.ok ⟨"", none, some 0, some ""⟩, [⟨"hello", ""⟩]) := by
  have h := classify_missing_response_field ⟨"hello", some 50, some 1, none⟩
    [("done", "true")] [] 0 (by decide) rfl
  simpa using h

/-- C2 counterexample: a store with two unlabeled records, a labeler that
succeeds on every prompt, and a process that terminates after processing the
first record. The first record's label is present in the connection's
session view, but the durable store is completely unchanged — the label is
lost, because `pseudo_label_all` executes its `UPDATE`s inside one
transaction and only calls `conn.commit()` after the loop. -/
theorem midpass_not_durable_cex :
    (midPassConn (fun _ => some "add to cart")
        [⟨1, "amazon.com", "Add to Cart", none, none⟩,
         ⟨2, "github.com", "Fork", none, none⟩] 1).session.head?
      = some ⟨1, "amazon.com", "Add to Cart", some "add to cart",
             some "mistral_api"⟩ ∧
    (midPassConn (fun _ => some "add to cart")
        [⟨1, "amazon.com", "Add to Cart", none, none⟩,
         ⟨2, "github.com", "Fork", none, none⟩] 1).durable
      = [⟨1, "amazon.com", "Add to Cart", none, none⟩,
         ⟨2, "github.com", "Fork", none, none⟩] :=
  ⟨rfl, rfl⟩

/-- C2 amended: `pseudo_label_all` executes the per-record `UPDATE`s on the
session but commits only once, after the loop: terminating the process after
any number `k` of processed records leaves the durable store exactly as it
was before the pass (every already-processed record's label is lost), and
only the pass-final `conn.commit()` makes the whole session durable. -/
theorem commit_only_at_pass_end (lab : String → Option String)
    (db : List IntentRecord) (k : Nat) :
    (midPassConn lab db k).durable = db ∧
    (pseudo_label_all lab db).durable
      = (labelPass lab ⟨db, db⟩ (selectUnlabeled db)).session :=
  ⟨labelPass_durable lab _ ⟨db, db⟩, rfl⟩

/-- C7: on a backend whose every attempt fails with a retryable fault, the
client makes exactly `max_retries` attempts numbered from 0, sleeps `2 ^ i`
seconds after each failed attempt `i < max_retries - 1`, and returns no
result (the fallback synthesizes no label). -/
theorem retry_exhaustion (prompt : String) (backend : Nat → AttemptOutcome)
    (max_retries : Nat) (h : ∀ i, retryable (backend i) = true) :
    label_with_mistral_api prompt backend max_retries
      = ⟨none, max_retries, (List.range (max_retries - 1)).map (fun i => 2 ^ i)⟩ := by
  unfold label_with_mistral_api
  rw [retryFrom_exhaust backend max_retries h (max_retries - 0) 0 rfl]
  simp [fallback_classification, List.range_eq_range']

/-- Witness for `retry_exhaustion`: a backend that always times out, with
`max_retries = 3`: three attempts, two sleeps of 1 and 2 seconds, no
result. -/
theorem retry_exhaustion_witness :
    label_with_mistral_api "p" (fun _ => AttemptOutcome.timeoutErr) 3
      = ⟨none, 3, [1, 2]⟩ := by
  rw [retry_exhaustion "p" (fun _ => AttemptOutcome.timeoutErr) 3 (fun _ => rfl)]
  rfl

/-- C8: for every decoded 200 body, extraction follows the ordered policy —
the full `"intent"` value if the field is present, else `"response"`, else
`"text"`, each trimmed and lower-cased but never truncated, else the first
whitespace-delimited token of the stringified body with the literal
`"navigate"` as last resort. -/
theorem extraction_policy (fields : List (String × String)) :
    (∀ v, lookupField fields "intent" = some v →
        extractFromBody fields = pyLower (pyStrip v)) ∧
    (lookupField fields "intent" = none →
      ∀ v, lookupField fields "response" = some v →
        extractFromBody fields = pyLower (pyStrip v)) ∧
    (lookupField fields "intent" = none → lookupField fields "response" = none →
      ∀ v, lookupField fields "text" = some v →
        extractFromBody fields = pyLower (pyStrip v)) ∧
    (lookupField fields "intent" = none → lookupField fields "response" = none →
      lookupField fields "text" = none →
        extractFromBody fields
          = firstTokenOrNavigate (pyLower (pyStrip (pyReprDict fields)))) := by
  refine ⟨?_, ?_, ?_, ?_⟩
  · intro v hv
    unfold extractFromBody
    rw [hv]
  · intro h1 v hv
    unfold extractFromBody
    rw [h1, hv]
  · intro h1 h2 v hv
    unfold extractFromBody
    rw [h1, h2, hv]
  · intro h1 h2 h3
    unfold extractFromBody
    rw [h1, h2, h3]

/-- Witness for `extraction_policy`, at the spec's scenario: a body
`\x7b"response": " Search Products NOW "\x7d` yields the whole normalized
field value `"search products now"`, not its first token. -/
theorem extraction_policy_witness :
    lookupField [("response", " Search Products NOW ")] "intent" = none ∧
    extractFromBody [("response", " Search Products NOW ")]
      = "search products now" := by
  refine ⟨rfl, ?_⟩
  have h := (extraction_policy [("response", " Search Products NOW ")]).2.1 rfl
    " Search Products NOW " rfl
  rw [h]
  rfl

/-- C9 counterexample: the claim's invariant is the non-emptiness form —
`inferred_intent` non-empty iff `label_source` set. A backend 200 body
`\x7b"intent": ""\x7d` makes the real client return the empty string as a
successful result, and the pass then writes `inferred_intent = ""` together
with `label_source = "mistral_api"`: the invariant held before the pass and
fails after it. -/
theorem empty_label_invariant_cex :
    claimInvariant [⟨1, "amazon.com", "Add to Cart", none, none⟩] ∧
    ¬ claimInvariant (pseudo_label_all
        (fun p => (label_with_mistral_api p
          (fun _ => .http200 [("intent", "")]) 3).result)
        [⟨1, "amazon.com", "Add to Cart", none, none⟩]).durable := by
  constructor
  · decide
  · have hlab : ∀ p : String,
        (label_with_mistral_api p
          (fun _ => AttemptOutcome.http200 [("intent", "")]) 3).result
          = some "" := by
      intro p
      unfold label_with_mistral_api
      rw [retryFrom_success_first _ 3 [("intent", "")] (by omega) rfl]
      rfl
    have hfun : (fun p => (label_with_mistral_api p
        (fun _ => AttemptOutcome.http200 [("intent", "")]) 3).result)
        = fun _ : String => some "" := funext hlab
    rw [hfun]
    decide

/-- C9 amended: every pass preserves the store invariant in its presence
form — `inferred_intent` is set (non-NULL) iff `label_source` is set — and
evolves each record in the only two permitted ways: an already-labeled
record is left exactly as it was (only records with absent `inferred_intent`
are selected), and an unlabeled record is either skipped or has
`inferred_intent` and `label_source` written together in its single
per-record `UPDATE`. The claim's stronger non-empty form fails only when a
successful classification returns the empty string. -/
theorem labeling_pass_invariant (lab : String → Option String)
    (db : List IntentRecord) (hid : (db.map IntentRecord.id).Nodup)
    (hinv : presentInv db) :
    List.Forall₂ evolvesP db (pseudo_label_all lab db).durable ∧
    presentInv (pseudo_label_all lab db).durable := by
  have hsess : (pseudo_label_all lab db).durable
      = (selectUnlabeled db).foldl (sessStep lab) db := by
    show (labelPass lab ⟨db, db⟩ (selectUnlabeled db)).session = _
    rw [labelPass_session]
  have hbase : List.Forall₂ (fun r0 r => r0 ∈ db → evolvesP r0 r) db db :=
    List.forall₂_same.mpr (fun r _ _ => ⟨fun _ => rfl, fun _ => Or.inl rfl⟩)
  have hF := sessFold_evolves lab db hid (selectUnlabeled db) db
    (selectUnlabeled_targets db) hbase
  have hF2 : List.Forall₂ evolvesP db
      ((selectUnlabeled db).foldl (sessStep lab) db) := by
    rw [List.forall₂_iff_get] at hF ⊢
    obtain ⟨hlen, hpt⟩ := hF
    exact ⟨hlen, fun i h1 h2 => hpt i h1 h2 (List.get_mem db i h1)⟩
  rw [hsess]
  refine ⟨hF2, ?_⟩
  rw [List.forall₂_iff_get] at hF2
  obtain ⟨hlen, hpt⟩ := hF2
  intro r hr
  obtain ⟨i, hi⟩ := List.mem_iff_get.mp hr
  have h2 := i.2
  have h1 : i.1 < db.length := by omega
  have hE := hpt i.1 h1 i.2
  have hgr : (List.foldl (sessStep lab) db (selectUnlabeled db)).get ⟨i.1, i.2⟩
      = r := hi
  rw [hgr] at hE
  by_cases h0 : (db.get ⟨i.1, h1⟩).inferred_intent = none
  · rcases hE.2 h0 with h' | ⟨s, h'⟩
    · rw [h']
      exact hinv _ (List.get_mem ..)
    · rw [h']
      simp [relabel]
  · rw [hE.1 h0]
    exact hinv _ (List.get_mem ..)

/-- Witness for `labeling_pass_invariant` on a two-record store with one
labeled and one unlabeled record and a labeler that always succeeds. -/
theorem labeling_pass_invariant_witness :
    List.Forall₂ evolvesP
      [⟨1, "amazon.com", "Add to Cart", none, none⟩,
       ⟨2, "github.com", "Fork", some "fork a repository", some "mistral_api"⟩]
      (pseudo_label_all (fun _ => some "add to cart")
        [⟨1, "amazon.com", "Add to Cart", none, none⟩,
         ⟨2, "github.com", "Fork", some "fork a repository",
          some "mistral_api"⟩]).durable ∧
    presentInv (pseudo_label_all (fun _ => some "add to cart")
        [⟨1, "amazon.com", "Add to Cart", none, none⟩,
         ⟨2, "github.com", "Fork", some "fork a repository",
          some "mistral_api"⟩]).durable :=
  labeling_pass_invariant (fun _ => some "add to cart")
    [⟨1, "amazon.com", "Add to Cart", none, none⟩,
     ⟨2, "github.com", "Fork", some "fork a repository", some "mistral_api"⟩]
    (by decide) (by decide)

end IntentClassifier
